import Mathlib

/-!
Verification of the WSO2 identity-apps admin console slice:
the tenant-creation form (`add-tenant-form.tsx`) and the organization
discovery assigner (`add-organization-discovery-domains` component in the
same source file).

JavaScript strings are embedded as `List Char` (named `JSString`), so that
JS index arithmetic (`indexOf`, `lastIndexOf`, `split`) can be mirrored
exactly, including the `-1` sentinel.  External collaborators (remote
regular expressions, the `FormValidation` library, the availability
endpoints) are abstracted as function parameters, exactly at the interface
boundary the component calls them through.
-/

/-- Embedding of a JavaScript string as a list of characters. -/
abbrev JSString := List Char

/-- JavaScript `String.prototype.indexOf` for a single-character needle:
the index of the first occurrence of `c`, or `-1` when absent. -/
def indexOfChar (c : Char) : List Char → Int
  | [] => -1
  | x :: xs =>
      if x = c then 0
      else
        let r := indexOfChar c xs
        if r = -1 then -1 else r + 1

/-- JavaScript `String.prototype.lastIndexOf` for a single-character needle:
the index of the last occurrence of `c`, or `-1` when absent. -/
def lastIndexOfChar (c : Char) : List Char → Int
  | [] => -1
  | x :: xs =>
      let r := lastIndexOfChar c xs
      if r = -1 then (if x = c then 0 else -1) else r + 1

/-- JavaScript `String.prototype.split` with a non-empty separator string.
The `fuel` argument bounds the recursion; `jsSplit` supplies fuel equal to
the subject length, which suffices because every step consumes at least one
character. -/
def jsSplitAux (sep : List Char) : Nat → List Char → List Char → List (List Char)
  | _, [], acc => [acc.reverse]
  | 0, s, acc => [acc.reverse ++ s]
  | fuel + 1, c :: rest, acc =>
      if sep.isPrefixOf (c :: rest) then
        acc.reverse :: jsSplitAux sep fuel ((c :: rest).drop sep.length) []
      else
        jsSplitAux sep fuel rest (c :: acc)

/-- JavaScript `s.split(sep)` for a non-empty `sep`. -/
def jsSplit (sep s : List Char) : List (List Char) :=
  jsSplitAux sep s.length s []

/-- JavaScript truthiness of a possibly-undefined string value:
`undefined`, `null` and `""` are falsy, every other string is truthy. -/
def jsTruthyOptStr : Option JSString → Bool
  | none => false
  | some s => !s.isEmpty

/-- JavaScript truthiness of a possibly-undefined boolean value:
`undefined` is falsy, otherwise the boolean itself. -/
def optBoolTruthy : Option Bool → Bool
  | none => false
  | some b => b

/-- JavaScript `Array.prototype.pop` viewed functionally: the array with its
last element removed (a no-op on the empty array). -/
def jsPop {α : Type} : List α → List α := fun l => l.dropLast

/-!
Tenant creation form (`AddTenantForm`): validators, submit-time
validation and the submit payload.
-/

/-- Remote tenant-domain availability call (`getTenantDomainAvailability`):
either the promise resolves with a boolean, or it rejects (transport
fault). -/
inductive RemoteOutcome where
  | ok (available : Bool)
  | fault
deriving DecidableEq

/-- Configuration snapshot read by `validateDomain` from the redux store.
A configured remote regular expression is abstracted as its `test`
function; `none` models an unset (falsy) configuration value, which skips
that rule. -/
structure TenantDomainConfig where
  isTenantDomainDotExtensionMandatory : Bool
  tenantDomainRegexTest : Option (JSString → Bool)
  tenantDomainIllegalCharactersRegexTest : Option (JSString → Bool)

/-- Error outcomes of `validateDomain`, one per distinct i18n message key
returned by the source. -/
inductive DomainError where
  | mandatoryExtension
  | invalidPattern
  | startingWithDot
  | invalidCharPattern
  | unavailable
deriving DecidableEq

/-- Embedding of `validateDomain` from `add-tenant-form.tsx`.  The first
component is the validator's result (`none` = resolves `undefined`, i.e.
valid); the second component records whether the remote availability
collaborator was invoked.  The `try/catch` around the availability call
maps the `fault` outcome to `isAvailable = false` (fail closed). -/
def validateDomain (cfg : TenantDomainConfig) (avail : JSString → RemoteOutcome)
    (value : JSString) : Option DomainError × Bool :=
  if value.isEmpty then (none, false)
  else if cfg.isTenantDomainDotExtensionMandatory && decide (lastIndexOfChar '.' value ≤ 0) then
    (some DomainError.mandatoryExtension, false)
  else if cfg.tenantDomainRegexTest.elim false (fun test => !(test value)) then
    (some DomainError.invalidPattern, false)
  else if indexOfChar '.' value = 0 then
    (some DomainError.startingWithDot, false)
  else if cfg.tenantDomainIllegalCharactersRegexTest.elim false (fun test => test value) then
    (some DomainError.invalidCharPattern, false)
  else
    match avail value with
    | RemoteOutcome.ok true => (none, true)
    | RemoteOutcome.ok false => (some DomainError.unavailable, true)
    | RemoteOutcome.fault => (some DomainError.unavailable, true)

/-- Error outcome of `validateUsernameAgainstUserstoreRegExp`. -/
inductive UsernameError where
  | regExViolation
deriving DecidableEq

/-- Embedding of `validateUsernameAgainstUserstoreRegExp` from
`add-tenant-form.tsx`.  `userRegexTest` abstracts the regex fetched by
`getUsertoreUsernameValidationPattern` composed with
`SharedUserStoreUtils.validateInputAgainstRegEx`; `emailValid` abstracts
`FormValidation.email`. -/
def validateUsernameAgainstUserstoreRegExp (userRegexTest emailValid : JSString → Bool)
    (value : JSString) : Option UsernameError :=
  if value.isEmpty then none
  else if !(userRegexTest value) || !(emailValid value) then some UsernameError.regExViolation
  else none

/-- Error outcome of `validateOrganizationName`. -/
inductive OrganizationNameError where
  | invalidCharPattern
deriving DecidableEq

/-- Embedding of `validateOrganizationName` from `add-tenant-form.tsx`.
`organizationNameRegexTest` abstracts
`new RegExp(TenantConstants.ORGANIZATION_NAME_REGEX).test`; a match is an
error (the pattern is a disallow-list). -/
def validateOrganizationName (organizationNameRegexTest : JSString → Bool)
    (orgName : JSString) : Option OrganizationNameError :=
  if orgName.isEmpty then none
  else if organizationNameRegexTest orgName then some OrganizationNameError.invalidCharPattern
  else none

/-- Values of the tenant-creation form (`AddTenantFormValues`). -/
structure AddTenantFormValues where
  domain : JSString
  organizationName : JSString
  email : JSString
  firstname : JSString
  lastname : JSString
  password : JSString
  username : JSString
deriving DecidableEq

/-- Per-field errors produced by the submit-time `handleValidate`, one per
distinct i18n message key in the source. -/
inductive FieldError where
  | domainRequired
  | firstnameRequired
  | lastnameRequired
  | emailRequired
  | emailInvalid
  | passwordRequired
  | usernameRequired
deriving DecidableEq

/-- Error record returned by `handleValidate` (`AddTenantFormErrors`). -/
structure AddTenantFormErrors where
  domain : Option FieldError
  firstname : Option FieldError
  lastname : Option FieldError
  email : Option FieldError
  password : Option FieldError
  username : Option FieldError
deriving DecidableEq

/-- Embedding of the submit-time synchronous `handleValidate` from
`add-tenant-form.tsx`.  `emailValid` abstracts `FormValidation.email`. -/
def handleValidate (emailValid : JSString → Bool) (values : AddTenantFormValues) :
    AddTenantFormErrors :=
  { domain := if values.domain.isEmpty then some FieldError.domainRequired else none
  , firstname := if values.firstname.isEmpty then some FieldError.firstnameRequired else none
  , lastname := if values.lastname.isEmpty then some FieldError.lastnameRequired else none
  , email :=
      if values.email.isEmpty then some FieldError.emailRequired
      else if !(emailValid values.email) then some FieldError.emailInvalid
      else none
  , password := if values.password.isEmpty then some FieldError.passwordRequired else none
  , username := if values.username.isEmpty then some FieldError.usernameRequired else none }

/-- Form values with every field empty, as a fresh form holds them. -/
def emptyAddTenantFormValues : AddTenantFormValues :=
  { domain := [], organizationName := [], email := [], firstname := []
  , lastname := [], password := [], username := [] }

/-- Modelled from the spec: the enum constant `TenantStatus.INLINE_PASSWORD`
used as the owner's `provisioningMethod`; the enum's literal value lives in
`models/tenants.ts`, which is not part of the provided sources, so an
opaque-to-the-claims literal stands in for it. -/
def TenantStatusINLINE_PASSWORD : JSString := "INLINE_PASSWORD".toList

/-- Owner object placed in the create-tenant payload's `owners` array. -/
structure TenantOwnerPayload where
  email : JSString
  firstname : JSString
  lastname : JSString
  password : JSString
  username : JSString
  provisioningMethod : JSString
deriving DecidableEq

/-- Value of one key of the (JSON-shaped) create-tenant payload. -/
inductive PayloadValue where
  | str (s : JSString)
  | ownerList (owners : List TenantOwnerPayload)
deriving DecidableEq

/-- Key lookup on a JSON-object-shaped association list. -/
def lookupField {α : Type} (fields : List (String × α)) (key : String) : Option α :=
  (fields.find? (fun kv => kv.fst = key)).map Prod.snd

/-- Embedding of `handleSubmit` from `add-tenant-form.tsx`: the
`AddTenantRequestPayload` it builds, rendered as a key-value object so that
the JSON key names are part of the model.  The source destructures
`{ domain, organizationName, ...rest }` and builds
`{ domain, name: organizationName, owners: [{ ...rest, provisioningMethod }] }`. -/
def handleSubmit (values : AddTenantFormValues) : List (String × PayloadValue) :=
  [ ("domain", PayloadValue.str values.domain)
  , ("name", PayloadValue.str values.organizationName)
  , ("owners", PayloadValue.ownerList
      [ { email := values.email
        , firstname := values.firstname
        , lastname := values.lastname
        , password := values.password
        , username := values.username
        , provisioningMethod := TenantStatusINLINE_PASSWORD } ]) ]

/-- Value of one key of the payload shape the specification describes. -/
inductive SpecPayloadValue where
  | str (s : JSString)
  | ownerObj (owner : TenantOwnerPayload)
deriving DecidableEq

/-- Modelled from the spec: the `TenantCreationRequest` shape the
specification claims, `{ domain, organizationName, owner: { ... } }`, for
comparison with the payload `handleSubmit` actually builds. -/
def specTenantCreationRequest (values : AddTenantFormValues) : List (String × SpecPayloadValue) :=
  [ ("domain", SpecPayloadValue.str values.domain)
  , ("organizationName", SpecPayloadValue.str values.organizationName)
  , ("owner", SpecPayloadValue.ownerObj
      { email := values.email
      , firstname := values.firstname
      , lastname := values.lastname
      , password := values.password
      , username := values.username
      , provisioningMethod := TenantStatusINLINE_PASSWORD }) ]

/-- Concrete form values used to exhibit the payload-shape divergence. -/
def sampleAddTenantFormValues : AddTenantFormValues :=
  { domain := "acme.com".toList
  , organizationName := "Acme".toList
  , email := "admin@acme.com".toList
  , firstname := "Ada".toList
  , lastname := "Lovelace".toList
  , password := "s3cret!A".toList
  , username := "admin@acme.com".toList }

/-!
Organization discovery assigner (`AddOrganizationDiscoveryDomains`):
paginated organization loader, fetch-error handling, email-domain
multi-value validation and the submit action.
-/

/-- An organization row (`OrganizationInterface`). -/
structure OrganizationInterface where
  id : JSString
  name : JSString
deriving DecidableEq

/-- A HATEOAS link of the organization-list response
(`OrganizationLinkInterface`). -/
structure OrganizationLinkInterface where
  rel : JSString
  href : JSString
deriving DecidableEq

/-- Organization-list response consumed by the success effect. -/
structure OrganizationListResponseInterface where
  organizations : List OrganizationInterface
  links : List OrganizationLinkInterface
deriving DecidableEq

/-- Request parameters state (`GetOrganizationsParamsInterface`);
`after = none` models `null`/`undefined`, `filter = none` the initially
unset filter. -/
structure GetOrganizationsParamsInterface where
  after : Option JSString
  filter : Option JSString
  limit : Nat
  shouldFetch : Bool
deriving DecidableEq

/-- The component state cells of the organization loader, bundled:
`organizations`, `hasMoreOrganizations`, `inputValue`, `afterCursor` and
`params`.  `afterCursor = none` models `null`/`undefined`. -/
structure DiscoveryLoaderState where
  organizations : List OrganizationInterface
  hasMoreOrganizations : Bool
  inputValue : JSString
  afterCursor : Option JSString
  params : GetOrganizationsParamsInterface
deriving DecidableEq

/-- The initial loader state set by the `useState` initializers. -/
def loaderStateInit : DiscoveryLoaderState :=
  { organizations := []
  , hasMoreOrganizations := true
  , inputValue := []
  , afterCursor := none
  , params := { after := none, filter := none, limit := 15, shouldFetch := true } }

/-- The `queryPrefix` constant (`"name co "`). -/
def queryPrefixValue : JSString := "name co ".toList

/-- Embedding of `updateParams` from the discovery assigner: stores the
cursor and input value and rebuilds `params` with
`after: cursor || null`, `filter: inputValue ? queryPrefix + inputValue : ""`
and `shouldFetch: true`. -/
def updateParams (st : DiscoveryLoaderState) (cursor inputValueArg : JSString) :
    DiscoveryLoaderState :=
  { st with
    afterCursor := some cursor
  , inputValue := inputValueArg
  , params :=
      { st.params with
        after := if cursor.isEmpty then none else some cursor
      , filter := some (if inputValueArg.isEmpty then [] else queryPrefixValue ++ inputValueArg)
      , shouldFetch := true } }

/-- Embedding of the debounced body of `handleInputChange`: on a filter
text change it clears the accumulated organizations, then calls
`updateParams("", data ?? "")`. -/
def handleInputChange (st : DiscoveryLoaderState) (data : Option JSString) :
    DiscoveryLoaderState :=
  updateParams { st with organizations := [] } [] (data.getD [])

/-- Extraction of the next-page cursor from a link href:
`href.split("after=")[1]`; `none` models the `undefined` the index access
yields when the href carries no `after=` occurrence. -/
def extractAfterCursor (href : JSString) : Option JSString :=
  (jsSplit "after=".toList href).get? 1

/-- The `"next"` relation tag the success effect scans for. -/
def nextRelMarker : JSString := "next".toList

/-- One iteration of the `forEach` over the response links in the
organization-list success effect.  The accumulator mirrors the mutated
cells `(afterCursor, hasMoreOrganizations, nextFound)`: a link with
`rel === "next"` overwrites all three (`hasMore` becomes `!!nextCursor`),
any other link leaves them untouched. -/
def processNextLink (acc : Option JSString × Bool × Bool)
    (link : OrganizationLinkInterface) : Option JSString × Bool × Bool :=
  if link.rel = nextRelMarker then
    (extractAfterCursor link.href, jsTruthyOptStr (extractAfterCursor link.href), true)
  else acc

/-- Embedding of the organization-list success effect (the `useEffect` on
`organizationListResponse`): clear `shouldFetch`, append the returned
organizations, scan the links for `rel === "next"`, and when no next link
was found set the cursor to `""` and `hasMore` to `false`. -/
def handleOrganizationListResponse (st : DiscoveryLoaderState)
    (resp : OrganizationListResponseInterface) : DiscoveryLoaderState :=
  let withFetchCleared := { st with params := { st.params with shouldFetch := false } }
  let appended :=
    { withFetchCleared with
      organizations := withFetchCleared.organizations ++ resp.organizations }
  let scan := resp.links.foldl processNextLink
    (appended.afterCursor, appended.hasMoreOrganizations, false)
  if scan.2.2 then
    { appended with afterCursor := scan.1, hasMoreOrganizations := scan.2.1 }
  else
    { appended with afterCursor := some [], hasMoreOrganizations := false }

/-- Notification severity (`AlertLevels`). -/
inductive AlertLevel where
  | error
  | success
  | info
deriving DecidableEq

/-- A notification dispatched through `addAlert`. -/
structure Alert where
  description : JSString
  level : AlertLevel
  message : JSString
deriving DecidableEq

/-- Structured error body (`error.response.data`) of a failed
organization-list fetch. -/
structure FetchErrorData where
  description : Option JSString
  message : Option JSString
deriving DecidableEq

/-- The `response` part of a failed fetch's error object. -/
structure FetchErrorResponse where
  data : Option FetchErrorData
deriving DecidableEq

/-- The error object of a failed organization-list fetch. -/
structure FetchRequestError where
  response : Option FetchErrorResponse
deriving DecidableEq

/-- The optional chain `error?.response?.data?.description`. -/
def fetchErrorDescription (e : FetchRequestError) : Option JSString :=
  e.response.bind (fun r => r.data.bind (fun d => d.description))

/-- The optional chain `error?.response?.data?.message`. -/
def fetchErrorMessage (e : FetchRequestError) : Option JSString :=
  e.response.bind (fun r => r.data.bind (fun d => d.message))

/-- i18n key `organizations:notifications.getOrganizationList.error.description`. -/
def getOrganizationListErrorDescription : JSString :=
  "organizations:notifications.getOrganizationList.error.description".toList

/-- i18n key `organizations:notifications.getOrganizationList.error.message`. -/
def getOrganizationListErrorMessage : JSString :=
  "organizations:notifications.getOrganizationList.error.message".toList

/-- i18n key `organizations:notifications.getOrganizationList.genericError.description`. -/
def getOrganizationListGenericErrorDescription : JSString :=
  "organizations:notifications.getOrganizationList.genericError.description".toList

/-- i18n key `organizations:notifications.getOrganizationList.genericError.message`. -/
def getOrganizationListGenericErrorMessage : JSString :=
  "organizations:notifications.getOrganizationList.genericError.message".toList

/-- Embedding of the fetch-error effect (the `useEffect` on
`organizationsFetchRequestError`): it returns the (unchanged) loader state
together with the list of alerts it dispatches.  A missing error is the
early-return path; a truthy `error?.response?.data?.description` selects
the structured alert (with `??` fallbacks), otherwise the generic alert is
dispatched. -/
def handleOrganizationsFetchRequestError (st : DiscoveryLoaderState)
    (err : Option FetchRequestError) : DiscoveryLoaderState × List Alert :=
  match err with
  | none => (st, [])
  | some e =>
      if jsTruthyOptStr (fetchErrorDescription e) then
        (st, [ { description := (fetchErrorDescription e).getD getOrganizationListErrorDescription
               , level := AlertLevel.error
               , message := (fetchErrorMessage e).getD getOrganizationListErrorMessage } ])
      else
        (st, [ { description := getOrganizationListGenericErrorDescription
               , level := AlertLevel.error
               , message := getOrganizationListGenericErrorMessage } ])

/-- Remote email-domain availability call (`checkEmailDomainAvailable`):
the promise either resolves — with `response?.available` embedded as an
`Option Bool`, `none` when the field is missing — or rejects. -/
inductive EmailCheckOutcome where
  | resolved (response : Option Bool)
  | rejected
deriving DecidableEq

/-- Embedding of `checkEmailDomainAvailability` from the discovery
assigner.  The local `available` starts as `true`; a resolved call
overwrites it with `response?.available`; a rejected call leaves it
untouched and only dispatches the `checkEmailDomain` error alert.  The
first component is the returned value of `available`, the second records
whether the catch handler dispatched that alert. -/
def checkEmailDomainAvailability (remote : JSString → EmailCheckOutcome)
    (emailDomain : JSString) : Option Bool × Bool :=
  match remote emailDomain with
  | EmailCheckOutcome.resolved response => (response, false)
  | EmailCheckOutcome.rejected => (some true, true)

/-- Outcome of one `validateEmailDomain` run: the email-domain list after
any `pop`, the two error flags, and whether the availability catch handler
dispatched its alert. -/
structure EmailDomainValidationResult where
  emailDomains : List JSString
  isEmailDomainDataError : Bool
  isEmailDomainAvailableError : Bool
  checkErrorAlertDispatched : Bool
deriving DecidableEq

/-- Embedding of `validateEmailDomain` from the discovery assigner.
`domainFormatValid` abstracts `FormValidation.domain`.  The component
invokes this only with a non-empty list (the `onChange` handler guards
`value.length > 0`), so the `getD` default for the last entry is never
reached in reachable states.  The last entry is format-checked; on failure
it is popped with the data-error flag raised; otherwise it is
availability-checked and popped with the available-error flag raised only
when the returned `available` value is falsy. -/
def validateEmailDomain (domainFormatValid : JSString → Bool)
    (remote : JSString → EmailCheckOutcome) (emailDomainList : List JSString) :
    EmailDomainValidationResult :=
  let lastEntry := emailDomainList.getLast?.getD []
  if !(domainFormatValid lastEntry) then
    { emailDomains := jsPop emailDomainList
    , isEmailDomainDataError := true
    , isEmailDomainAvailableError := false
    , checkErrorAlertDispatched := false }
  else
    let check := checkEmailDomainAvailability remote lastEntry
    if optBoolTruthy check.fst then
      { emailDomains := emailDomainList
      , isEmailDomainDataError := false
      , isEmailDomainAvailableError := false
      , checkErrorAlertDispatched := check.snd }
    else
      { emailDomains := jsPop emailDomainList
      , isEmailDomainDataError := false
      , isEmailDomainAvailableError := true
      , checkErrorAlertDispatched := check.snd }

/-- Embedding of lodash `isEmpty` on a possibly-undefined string. -/
def lodashIsEmptyStr : Option JSString → Bool
  | none => true
  | some s => s.isEmpty

/-- Embedding of the discovery submit button's `disabled` expression:
`submitting || isEmpty(emailDomains) || isEmpty(values?.organizationName)`. -/
def isAssignSubmitDisabled (submitting : Bool) (emailDomains : List JSString)
    (organizationName : Option JSString) : Bool :=
  submitting || emailDomains.isEmpty || lodashIsEmptyStr organizationName

/-- Embedding of the organization lookup inside the discovery assigner's
`handleSubmit`: `organizations?.find(o => o.name === values.organizationName)`. -/
def handleSubmitOrganizationLookup (organizations : List OrganizationInterface)
    (organizationName : JSString) : Option OrganizationInterface :=
  organizations.find? (fun organization => organization.name = organizationName)

/-- The unguarded `.id` dereference on the lookup result.  In the source
the access is not guarded, so `none` here marks exactly the inputs on which
the JavaScript expression throws a `TypeError` instead of producing an id. -/
def handleSubmitOrganizationId (organizations : List OrganizationInterface)
    (organizationName : JSString) : Option JSString :=
  (handleSubmitOrganizationLookup organizations organizationName).map OrganizationInterface.id

/-!
Concrete sample inputs used by counterexamples and witnesses.
-/

/-- Domain configuration with the dot-extension policy on and no remote
regular expressions configured. -/
def tenantDomainConfigMandatory : TenantDomainConfig :=
  { isTenantDomainDotExtensionMandatory := true
  , tenantDomainRegexTest := none
  , tenantDomainIllegalCharactersRegexTest := none }

/-- A response whose `next` link href carries no `after=` parameter. -/
def respNoAfterParam : OrganizationListResponseInterface :=
  { organizations := []
  , links := [ { rel := "next".toList, href := "https://example.com/organizations".toList } ] }

/-- The `next` link of `respWithCursor`. -/
def sampleNextLink : OrganizationLinkInterface :=
  { rel := "next".toList, href := "https://example.com/organizations?after=CURSOR1".toList }

/-- A response with one organization and a `next` link carrying a cursor. -/
def respWithCursor : OrganizationListResponseInterface :=
  { organizations := [ { id := "org-1".toList, name := "Acme".toList } ]
  , links := [ sampleNextLink ] }

/-- A response carrying no links at all. -/
def respNoLinks : OrganizationListResponseInterface :=
  { organizations := [ { id := "org-2".toList, name := "Globex".toList } ], links := [] }

/-- A fetch error with a structured body. -/
def fetchErrWithBody : FetchRequestError :=
  { response := some
      { data := some
          { description := some ("Invalid cursor".toList)
          , message := some ("Retrieval failed".toList) } } }

/-- A fetch error without a structured body. -/
def fetchErrNoBody : FetchRequestError := { response := none }

/-- A concrete accumulated organization list. -/
def sampleOrganizations : List OrganizationInterface :=
  [ { id := "1001".toList, name := "Acme".toList }
  , { id := "1002".toList, name := "Globex".toList } ]

/-!
Helper lemmas.
-/

/-- A character absent from a list has `lastIndexOfChar` equal to `-1`. -/
theorem lastIndexOfChar_eq_neg_one_of_not_mem {c : Char} {l : List Char} (h : c ∉ l) :
    lastIndexOfChar c l = -1 := by
  induction l with
  | nil => rfl
  | cons x xs ih =>
      have hx : x ≠ c := fun hxc => h (hxc ▸ List.mem_cons_self x xs)
      have hxs : c ∉ xs := fun hm => h (List.mem_cons_of_mem _ hm)
      simp [lastIndexOfChar, ih hxs, hx]

/-!
Claim theorems.
-/

/-- C4: with the dot-extension policy on, every non-empty domain without a
dot at a positive index fails `validateDomain` with the extension-specific
error, and the remote availability collaborator is never invoked. -/
theorem validateDomain_mandatory_extension_skips_remote (cfg : TenantDomainConfig)
    (avail : JSString → RemoteOutcome) (value : JSString)
    (hflag : cfg.isTenantDomainDotExtensionMandatory = true)
    (hne : value ≠ []) (hdot : ('.') ∉ value.drop 1) :
    validateDomain cfg avail value = (some DomainError.mandatoryExtension, false) := by
  obtain ⟨x, xs, rfl⟩ := List.exists_cons_of_ne_nil hne
  have hxs : ('.') ∉ xs := by simpa using hdot
  have hlast : lastIndexOfChar '.' (x :: xs) ≤ 0 := by
    simp only [lastIndexOfChar, lastIndexOfChar_eq_neg_one_of_not_mem hxs]
    split
    · split <;> norm_num
    · norm_num
  simp [validateDomain, hflag, hlast]

/-- Witness for `validateDomain_mandatory_extension_skips_remote` at the
concrete domain `"abc"`. -/
theorem validateDomain_mandatory_extension_skips_remote_witness :
    validateDomain tenantDomainConfigMandatory (fun _ => RemoteOutcome.ok true) ("abc".toList)
      = (some DomainError.mandatoryExtension, false) :=
  validateDomain_mandatory_extension_skips_remote tenantDomainConfigMandatory
    (fun _ => RemoteOutcome.ok true) ("abc".toList) rfl (by decide) (by decide)

/-- C5: every domain beginning with a dot is rejected by `validateDomain`,
for every combination of the extension flag and configured or absent
pattern and illegal-character regular expressions. -/
theorem validateDomain_rejects_leading_dot (cfg : TenantDomainConfig)
    (avail : JSString → RemoteOutcome) (rest : List Char) :
    ((validateDomain cfg avail ('.' :: rest)).fst).isSome = true := by
  unfold validateDomain
  rw [if_neg (by simp)]
  split
  · rfl
  · split
    · rfl
    · rw [if_pos (by simp [indexOfChar])]
      rfl

/-- C9: every per-field asynchronous validator of the tenant-creation form
resolves `undefined` on the empty string; required-field presence is
enforced by the submit-time `handleValidate` instead. -/
theorem perField_validators_accept_empty_input (userRegexTest emailValid : JSString → Bool)
    (cfg : TenantDomainConfig) (avail : JSString → RemoteOutcome)
    (organizationNameRegexTest : JSString → Bool) :
    validateUsernameAgainstUserstoreRegExp userRegexTest emailValid [] = none
  ∧ validateDomain cfg avail [] = (none, false)
  ∧ validateOrganizationName organizationNameRegexTest [] = none
  ∧ (handleValidate emailValid emptyAddTenantFormValues).domain = some FieldError.domainRequired
  ∧ (handleValidate emailValid emptyAddTenantFormValues).firstname
      = some FieldError.firstnameRequired
  ∧ (handleValidate emailValid emptyAddTenantFormValues).lastname
      = some FieldError.lastnameRequired
  ∧ (handleValidate emailValid emptyAddTenantFormValues).email = some FieldError.emailRequired
  ∧ (handleValidate emailValid emptyAddTenantFormValues).password
      = some FieldError.passwordRequired
  ∧ (handleValidate emailValid emptyAddTenantFormValues).username
      = some FieldError.usernameRequired := by
  refine ⟨rfl, rfl, rfl, rfl, rfl, rfl, rfl, rfl, rfl⟩

/-- C2 (amended): the create-tenant payload carries the organization name
under the `name` key and the admin identity fields, plus
`provisioningMethod`, inside a one-element `owners` array; it has no
`organizationName` and no `owner` key. -/
theorem handleSubmit_payload_shape (values : AddTenantFormValues) :
    lookupField (handleSubmit values) "domain" = some (PayloadValue.str values.domain)
  ∧ lookupField (handleSubmit values) "name" = some (PayloadValue.str values.organizationName)
  ∧ lookupField (handleSubmit values) "organizationName" = none
  ∧ lookupField (handleSubmit values) "owner" = none
  ∧ lookupField (handleSubmit values) "owners" = some (PayloadValue.ownerList
      [ { email := values.email
        , firstname := values.firstname
        , lastname := values.lastname
        , password := values.password
        , username := values.username
        , provisioningMethod := TenantStatusINLINE_PASSWORD } ]) := by
  refine ⟨rfl, rfl, rfl, rfl, rfl⟩

/-- C2 counterexample: at concrete form values, the payload built by
`handleSubmit` has neither an `organizationName` nor an `owner` key,
although the shape claimed for `TenantCreationRequest` has both. -/
theorem handleSubmit_payload_shape_counterexample :
    lookupField (handleSubmit sampleAddTenantFormValues) "organizationName" = none
  ∧ lookupField (handleSubmit sampleAddTenantFormValues) "owner" = none
  ∧ (lookupField (specTenantCreationRequest sampleAddTenantFormValues) "organizationName").isSome
      = true
  ∧ (lookupField (specTenantCreationRequest sampleAddTenantFormValues) "owner").isSome = true := by
  refine ⟨rfl, rfl, rfl, rfl⟩

/-- C6: the debounced filter-change transition clears the accumulated
organization list, resets the cursor to empty and requests the refetch in
that same state, so the new filter's fetch starts from an empty
accumulation. -/
theorem handleInputChange_clears_accumulated (st : DiscoveryLoaderState)
    (data : Option JSString) :
    (handleInputChange st data).organizations = []
  ∧ (handleInputChange st data).afterCursor = some []
  ∧ (handleInputChange st data).params.after = none
  ∧ (handleInputChange st data).params.shouldFetch = true
  ∧ (handleInputChange st data).inputValue = data.getD [] := by
  refine ⟨rfl, rfl, rfl, rfl, rfl⟩

/-- C8: the discovery submit action is enabled exactly when the email
domain list is non-empty, an organization name is selected (present and
non-empty) and no submission is in flight. -/
theorem assign_submit_enabled_iff (submitting : Bool) (emailDomains : List JSString)
    (organizationName : Option JSString) :
    isAssignSubmitDisabled submitting emailDomains organizationName = false ↔
      (emailDomains ≠ [] ∧ (∃ v, organizationName = some v ∧ v ≠ []) ∧ submitting = false) := by
  cases organizationName with
  | none => simp [isAssignSubmitDisabled, lodashIsEmptyStr]
  | some s =>
      cases submitting <;>
        simp [isAssignSubmitDisabled, lodashIsEmptyStr]

/-- The `forEach` over the response links computes, in accumulator form,
the data of the last `next`-tagged link when one exists and leaves the
accumulator untouched otherwise. -/
theorem foldl_processNextLink (links : List OrganizationLinkInterface)
    (acc : Option JSString × Bool × Bool) :
    links.foldl processNextLink acc =
      ((links.filter (fun link => link.rel = nextRelMarker)).getLast?).elim acc
        (fun link =>
          (extractAfterCursor link.href, jsTruthyOptStr (extractAfterCursor link.href), true)) := by
  induction links using List.reverseRecOn generalizing acc with
  | nil => rfl
  | append_singleton xs x ih =>
      rw [List.foldl_append, List.foldl_cons, List.foldl_nil, List.filter_append]
      by_cases hx : x.rel = nextRelMarker
      · have hfx : List.filter (fun link => decide (link.rel = nextRelMarker)) [x] = [x] := by
          simp [hx]
        rw [hfx, List.getLast?_concat, Option.elim_some]
        unfold processNextLink
        rw [if_pos hx]
      · have hfx : List.filter (fun link => decide (link.rel = nextRelMarker)) [x] = [] := by
          simp [hx]
        rw [hfx, List.append_nil, ih]
        unfold processNextLink
        rw [if_neg hx]

/-- C3 (amended): the success effect appends the returned organizations to
the accumulated sequence and clears the fetch request; when no `next` link
is present it moves to Exhausted with an empty cursor; when `next` links
are present, the last one wins: the cursor becomes the `after` parameter
extracted from its href and `hasMore` becomes that cursor's truthiness
(false when the href carries no non-empty `after=` value). -/
theorem handleOrganizationListResponse_pagination (st : DiscoveryLoaderState)
    (resp : OrganizationListResponseInterface) :
    (handleOrganizationListResponse st resp).organizations
        = st.organizations ++ resp.organizations
  ∧ (handleOrganizationListResponse st resp).params.shouldFetch = false
  ∧ ((resp.links.filter (fun link => link.rel = nextRelMarker)).getLast? = none →
      (handleOrganizationListResponse st resp).hasMoreOrganizations = false
      ∧ (handleOrganizationListResponse st resp).afterCursor = some [])
  ∧ (∀ link, (resp.links.filter (fun link => link.rel = nextRelMarker)).getLast? = some link →
      (handleOrganizationListResponse st resp).afterCursor = extractAfterCursor link.href
      ∧ (handleOrganizationListResponse st resp).hasMoreOrganizations
          = jsTruthyOptStr (extractAfterCursor link.href)) := by
  rcases h : (resp.links.filter (fun link => link.rel = nextRelMarker)).getLast? with _ | link
  · have hfold : resp.links.foldl processNextLink
        (st.afterCursor, st.hasMoreOrganizations, false)
        = (st.afterCursor, st.hasMoreOrganizations, false) := by
      rw [foldl_processNextLink, h]
      rfl
    refine ⟨?_, ?_, fun _ => ⟨?_, ?_⟩, fun link hlink => ?_⟩
    · simp [handleOrganizationListResponse, hfold]
    · simp [handleOrganizationListResponse, hfold]
    · simp [handleOrganizationListResponse, hfold]
    · simp [handleOrganizationListResponse, hfold]
    · rw [h] at hlink
      cases hlink
  · have hfold : resp.links.foldl processNextLink
        (st.afterCursor, st.hasMoreOrganizations, false)
        = (extractAfterCursor link.href, jsTruthyOptStr (extractAfterCursor link.href), true) := by
      rw [foldl_processNextLink, h, Option.elim_some]
    refine ⟨?_, ?_, fun hnone => ?_, fun link2 hlink => ?_⟩
    · simp [handleOrganizationListResponse, hfold]
    · simp [handleOrganizationListResponse, hfold]
    · rw [h] at hnone
      cases hnone
    · rw [h] at hlink
      injection hlink with hl
      subst hl
      exact ⟨by simp [handleOrganizationListResponse, hfold],
        by simp [handleOrganizationListResponse, hfold]⟩

/-- C3 counterexample: a response whose `next` link href carries no
`after=` parameter is settled with `hasMore = false`, although the claim
says that finding a `next` link always moves to Idle with
`hasMore = true`. -/
theorem handleOrganizationListResponse_nextLink_counterexample :
    (respNoAfterParam.links.filter (fun link => link.rel = nextRelMarker) ≠ [])
  ∧ (handleOrganizationListResponse loaderStateInit respNoAfterParam).hasMoreOrganizations
      = false := by
  refine ⟨by decide, by decide⟩

/-- Witness for `handleOrganizationListResponse_pagination`, applying it
to a response with a cursor-carrying `next` link and to one with no
links. -/
theorem handleOrganizationListResponse_pagination_witness :
    (handleOrganizationListResponse loaderStateInit respWithCursor).afterCursor
        = some ("CURSOR1".toList)
  ∧ (handleOrganizationListResponse loaderStateInit respWithCursor).organizations
        = respWithCursor.organizations
  ∧ (handleOrganizationListResponse loaderStateInit respNoLinks).hasMoreOrganizations
        = false := by
  have h1 := (handleOrganizationListResponse_pagination loaderStateInit respWithCursor).2.2.2
    sampleNextLink (by decide)
  have h2 := (handleOrganizationListResponse_pagination loaderStateInit respNoLinks).2.2.1
    (by decide)
  have h3 := (handleOrganizationListResponse_pagination loaderStateInit respWithCursor).1
  refine ⟨?_, ?_, h2.1⟩
  · rw [h1.1]
    decide
  · rw [h3]
    rfl

/-- C7: a failed organization-list fetch dispatches exactly one error
alert — its description and message taken from the structured error body
when a non-empty description is present, the generic texts otherwise — and
leaves the accumulated organizations and the cursor untouched. -/
theorem handleOrganizationsFetchRequestError_frame (st : DiscoveryLoaderState)
    (e : FetchRequestError) :
    (handleOrganizationsFetchRequestError st (some e)).fst.organizations = st.organizations
  ∧ (handleOrganizationsFetchRequestError st (some e)).fst.afterCursor = st.afterCursor
  ∧ ∃ a, (handleOrganizationsFetchRequestError st (some e)).snd = [a]
      ∧ a.level = AlertLevel.error
      ∧ (∀ d, fetchErrorDescription e = some d → d ≠ [] → a.description = d)
      ∧ (∀ d m, fetchErrorDescription e = some d → d ≠ [] →
            fetchErrorMessage e = some m → a.message = m)
      ∧ (fetchErrorDescription e = none →
            a.description = getOrganizationListGenericErrorDescription)
      ∧ (fetchErrorDescription e = some [] →
            a.description = getOrganizationListGenericErrorDescription) := by
  cases hb : jsTruthyOptStr (fetchErrorDescription e) with
  | false =>
      refine ⟨by simp [handleOrganizationsFetchRequestError, hb],
        by simp [handleOrganizationsFetchRequestError, hb],
        { description := getOrganizationListGenericErrorDescription
        , level := AlertLevel.error
        , message := getOrganizationListGenericErrorMessage },
        by simp [handleOrganizationsFetchRequestError, hb], rfl, ?_, ?_,
        fun _ => rfl, fun _ => rfl⟩
      · intro d hd hne
        rw [hd] at hb
        simp [jsTruthyOptStr] at hb
        exact absurd hb hne
      · intro d m hd hne hm
        rw [hd] at hb
        simp [jsTruthyOptStr] at hb
        exact absurd hb hne
  | true =>
      rcases hdesc : fetchErrorDescription e with _ | d
      · rw [hdesc] at hb
        cases hb
      · refine ⟨by simp [handleOrganizationsFetchRequestError, hb],
          by simp [handleOrganizationsFetchRequestError, hb],
          { description := d
          , level := AlertLevel.error
          , message := (fetchErrorMessage e).getD getOrganizationListErrorMessage },
          by
            have hb2 : jsTruthyOptStr (some d) = true := hdesc ▸ hb
            simp [handleOrganizationsFetchRequestError, hdesc, hb2],
          rfl, ?_, ?_, ?_, ?_⟩
        · intro d2 hd2 _
          cases hd2
          rfl
        · intro d2 m hd2 _ hm
          rw [hm]
          rfl
        · intro hnone
          cases hnone
        · intro hemp
          injection hemp with hl
          subst hl
          rw [hdesc] at hb
          simp [jsTruthyOptStr] at hb

/-- Witness for `handleOrganizationsFetchRequestError_frame` at a
structured error body and at a body-less error. -/
theorem handleOrganizationsFetchRequestError_frame_witness :
    (handleOrganizationsFetchRequestError loaderStateInit
        (some fetchErrWithBody)).fst.organizations = []
  ∧ (∃ a, (handleOrganizationsFetchRequestError loaderStateInit
        (some fetchErrWithBody)).snd = [a] ∧ a.description = "Invalid cursor".toList)
  ∧ (∃ a, (handleOrganizationsFetchRequestError loaderStateInit
        (some fetchErrNoBody)).snd = [a]
        ∧ a.description = getOrganizationListGenericErrorDescription) := by
  obtain ⟨h1, _, a, ha, _, hdc, _, _, _⟩ :=
    handleOrganizationsFetchRequestError_frame loaderStateInit fetchErrWithBody
  obtain ⟨_, _, b, hbs, _, _, _, hnc, _⟩ :=
    handleOrganizationsFetchRequestError_frame loaderStateInit fetchErrNoBody
  exact ⟨h1.trans rfl, ⟨a, ha, hdc _ rfl (by decide)⟩, ⟨b, hbs, hnc rfl⟩⟩

/-- C10: the discovery submit handler's organization lookup succeeds, and
only then is the `.id` dereference defined, exactly when some accumulated
organization carries the submitted name; for a name not present in the
accumulated sequence the lookup yields nothing and the unguarded field
access has no value to produce. -/
theorem handleSubmit_organization_lookup (organizations : List OrganizationInterface)
    (organizationName : JSString) :
    ((∃ o, o ∈ organizations ∧ o.name = organizationName) →
        ∃ o, handleSubmitOrganizationLookup organizations organizationName = some o
          ∧ o.name = organizationName
          ∧ handleSubmitOrganizationId organizations organizationName = some o.id)
  ∧ ((∀ o, o ∈ organizations → o.name ≠ organizationName) →
        handleSubmitOrganizationLookup organizations organizationName = none
        ∧ handleSubmitOrganizationId organizations organizationName = none) := by
  constructor
  · intro hex
    have hsome : (handleSubmitOrganizationLookup organizations organizationName).isSome := by
      rw [handleSubmitOrganizationLookup, List.find?_isSome]
      obtain ⟨o, ho, hn⟩ := hex
      exact ⟨o, ho, by simpa using hn⟩
    obtain ⟨o, ho⟩ := Option.isSome_iff_exists.mp hsome
    refine ⟨o, ho, ?_, ?_⟩
    · have := List.find?_some (by simpa [handleSubmitOrganizationLookup] using ho)
      simpa using this
    · rw [handleSubmitOrganizationId, ho]
      rfl
  · intro hall
    have hnone : handleSubmitOrganizationLookup organizations organizationName = none := by
      rw [handleSubmitOrganizationLookup, List.find?_eq_none]
      intro o ho
      simpa using hall o ho
    exact ⟨hnone, by rw [handleSubmitOrganizationId, hnone]; rfl⟩

/-- Witness for `handleSubmit_organization_lookup` on a concrete
accumulated list, at a present and at an absent organization name. -/
theorem handleSubmit_organization_lookup_witness :
    (handleSubmitOrganizationId sampleOrganizations ("Acme".toList)).isSome = true
  ∧ handleSubmitOrganizationId sampleOrganizations ("Initech".toList) = none := by
  constructor
  · obtain ⟨o, _, _, hid⟩ :=
      (handleSubmit_organization_lookup sampleOrganizations ("Acme".toList)).1
        ⟨{ id := "1001".toList, name := "Acme".toList }, by simp [sampleOrganizations], rfl⟩
    rw [hid]
    rfl
  · exact ((handleSubmit_organization_lookup sampleOrganizations ("Initech".toList)).2
      (by decide)).2

/-- C1: evaluation at the failing input.  The last entry `"acme.com"`
passes the format check, its availability request rejects, and the entry
stays in the committed list with no error flag raised — only the
check-error alert is dispatched.  The code fails open on a network fault,
while the claimed invariant requires the rejected entry never to remain
committed. -/
theorem validateEmailDomain_network_fault_keeps_entry :
    validateEmailDomain (fun _ => true) (fun _ => EmailCheckOutcome.rejected)
        ["acme.com".toList]
      = { emailDomains := ["acme.com".toList]
        , isEmailDomainDataError := false
        , isEmailDomainAvailableError := false
        , checkErrorAlertDispatched := true } := by
  rfl

